import Mathlib

/-!
# Verification of the pulse-pms authenticated HTTP client and route guard

Shallow embedding of `src/app/lib/api.ts` (the functions `createAbortController`,
`buildHeaders`, `refreshToken`, `fetchWithAuth`) and `src/middleware.ts`
(the `middleware` function together with its `config.matcher`).

The JavaScript runtime is modelled as follows:
* cookies (`js-cookie`) become a `Cookies` record of four `Option String` fields;
* JS string truthiness (`undefined` and `""` are falsy) is `jsTruthy` / `jsOrNull`;
* the network is an oracle `net : Nat → NetOutcome` consumed in call order;
  each performed `fetch` is logged as a `FetchEvent` (endpoint, headers sent,
  the id of the `AbortController` whose signal the call is bound to, and the
  timeout in milliseconds that controller was created with);
* `setTimeout`-based backoff waits are logged in `St.waits`;
* a thrown JS error is `Except.error` of a `JsError` (name and message:
  `new Error(m)` has name `"Error"`, an aborted fetch rejects with name
  `"AbortError"`, a failed `response.json()` rejects with name `"SyntaxError"`);
* `window.location.href = '/login'` becomes the `St.redirect` field.

Within one invocation everything in `fetchWithAuth` is sequential (the browser
event loop is single threaded), so `fetchWithAuthRun` is a deterministic state
transformer.  The cross-caller single-flight behaviour of the module-level
`refreshInProgress` slot is modelled separately as a small-step system
(`RefreshState`, `rstep`, `rexec`).
-/

namespace PulsePMS

/-- JS truthiness of a `string | undefined` value: `undefined` and `""` are falsy. -/
def jsTruthy : Option String → Bool
  | some s => s != ""
  | none => false

/-- The JS idiom `x || null` applied to a `string | undefined` value:
an empty string collapses to `null` (modelled as `none`). -/
def jsOrNull : Option String → Option String
  | some s => if s = "" then none else some s
  | none => none

/-- Coercion of a possibly-`undefined` JS value to a string, as `String(x)`
behaves when a cookie is set: `undefined` prints as `"undefined"`. -/
def jsStringOf : Option String → String
  | some s => s
  | none => "undefined"

/-- Assignment `headers[k] = v` on a JS plain-object header record:
an existing entry with the same key is overwritten, otherwise the entry is appended. -/
def setHeader (hs : List (String × String)) (k v : String) : List (String × String) :=
  if hs.any (fun p => p.1 == k) then
    hs.map (fun p => if p.1 == k then (k, v) else p)
  else
    hs ++ [(k, v)]

/-- Lookup of a header entry by (exact) key. -/
def getHeader (hs : List (String × String)) (k : String) : Option String :=
  (hs.find? (fun p => p.1 == k)).map Prod.snd

/-- `REQUEST_TIMEOUT` from `api.ts` line 5: request timeout in milliseconds. -/
def REQUEST_TIMEOUT : Nat := 30000

/-- `MAX_RETRIES` from `api.ts` line 8: maximum retry attempts. -/
def MAX_RETRIES : Nat := 2

/-- The four session cookies managed by the client
(`accessToken`, `refreshToken`, `userData`, `loginTime`); `none` = absent. -/
structure Cookies where
  accessToken : Option String
  refreshToken : Option String
  userData : Option String
  loginTime : Option String
deriving DecidableEq, Repr

/-- `Cookies.remove` applied to all four entries (api.ts lines 109-112 and 169-172). -/
def clearAllCookies (_c : Cookies) : Cookies :=
  { accessToken := none, refreshToken := none, userData := none, loginTime := none }

/-- An HTTP response as far as the client inspects it: status code, whether
`response.json()` succeeds, the `message` field of the parsed error body (when
present), the `access_token` field (for the refresh endpoint), and an abstract
payload standing for the successfully parsed body / blob. -/
structure HttpResp where
  status : Nat
  jsonOk : Bool
  message : Option String
  access_token : Option String
  payload : String
deriving DecidableEq, Repr

/-- `response.ok`: status in the inclusive range 200-299. -/
def HttpResp.ok (r : HttpResp) : Bool :=
  200 ≤ r.status && r.status < 300

/-- Outcome of one `fetch` call: a settled response, or a rejection carrying a
JS error name and message (`"AbortError"` when the abort signal fired). -/
inductive NetOutcome where
  | success (r : HttpResp)
  | err (name msg : String)
deriving DecidableEq, Repr

/-- A JS error value: its `name` and `message`. -/
structure JsError where
  name : String
  msg : String
deriving DecidableEq, Repr

/-- `errorData.message || generic` where `errorData` is
`await response.json().catch(() => ({}))`: the parsed message is used only when
the body parses and the field is a truthy (non-empty) string. -/
def respErrMsg (r : HttpResp) (generic : String) : String :=
  if r.jsonOk then
    match r.message with
    | some s => if s = "" then generic else s
    | none => generic
  else generic

/-- Which function issued a network call: `fetchWithAuth` (`api`) or
`refreshToken` (`refresh`). -/
inductive CallKind where
  | api
  | refresh
deriving DecidableEq, Repr

/-- Log entry for one performed `fetch`: the endpoint, the headers sent, the id
of the `AbortController` whose `signal` the call is bound to, and the timeout
(ms) that controller was created with. -/
structure FetchEvent where
  kind : CallKind
  endpoint : String
  headers : List (String × String)
  ctrl : Nat
  timeoutMs : Nat
deriving DecidableEq, Repr

/-- Mutable world state threaded through a run: the cookie jar, the log of
network calls, the log of backoff waits (ms), a supply of fresh
`AbortController` ids, the index of the next network outcome to consume, and
the value last assigned to `window.location.href` (if any). -/
structure St where
  cookies : Cookies
  events : List FetchEvent
  waits : List Nat
  nextCtrl : Nat
  netIdx : Nat
  redirect : Option String
deriving DecidableEq, Repr

/-- Initial state over a given cookie jar. -/
def initSt (c : Cookies) : St :=
  { cookies := c, events := [], waits := [], nextCtrl := 0, netIdx := 0, redirect := none }

/-- The `responseType` parameter of `fetchWithAuth`: `'json' | 'blob'`. -/
inductive RespType where
  | json
  | blob
deriving DecidableEq, Repr

/-- A successfully returned value: the parsed JSON payload or the raw blob. -/
inductive RespValue where
  | json (payload : String)
  | blob (payload : String)
deriving DecidableEq, Repr

/-- The `options` argument of `fetchWithAuth`, as far as the function inspects
it: whether `options.body instanceof FormData`, and `options.headers`. -/
structure FetchOptions where
  bodyIsFormData : Bool
  headers : Option (List (String × String))
deriving DecidableEq, Repr

/-- `buildHeaders` (api.ts lines 23-55): start from
`Content-Type: application/json`, merge the existing headers over it
(overwriting on key collision), then set `Authorization: Bearer <token>` when
the token is truthy. -/
def buildHeaders (token : Option String) (existing : Option (List (String × String))) :
    List (String × String) :=
  let headers := [("Content-Type", "application/json")]
  let headers :=
    match existing with
    | some hs => hs.foldl (fun acc kv => setHeader acc kv.1 kv.2) headers
    | none => headers
  if jsTruthy token then
    setHeader headers "Authorization" ("Bearer " ++ (token.getD ""))
  else headers

/-- The headers literal of the FormData branch of `fetchWithAuth` (api.ts line
135): `{ 'Authorization': token ? `Bearer ...` : '' }` — note the entry is
always present, with the empty string as value when the token is absent. -/
def formDataHeaders (token : Option String) : List (String × String) :=
  [("Authorization", if jsTruthy token then "Bearer " ++ (token.getD "") else "")]

/-- `refreshToken` (api.ts lines 61-122), run when no refresh is already
pending (the `refreshInProgress` single-flight slot is modelled separately by
`rstep`/`rexec`; within one sequential `fetchWithAuth` invocation the slot is
empty again by the time the awaiting caller resumes, because the `finally`
clause clears it before the promise settles).

With no stored refresh credential (falsy: absent or empty), the access token
and user data cookies are removed and `Error: No refresh token found` is thrown
without any network call.  Otherwise one `fetch` of `/auth/refresh` is issued,
bound to a fresh 30000 ms abort controller.  On an ok response whose body
parses, the `access_token` field is stored in the `accessToken` cookie and
returned.  On a non-ok response, a failed body parse, or a non-abort rejection,
all four cookies are removed and the error propagates.  On an `AbortError`
rejection a timeout error is thrown (note: without touching the cookies). -/
def refreshTokenRun (net : Nat → NetOutcome) (st : St) : Except JsError String × St :=
  match jsOrNull st.cookies.refreshToken with
  | none =>
      (Except.error ⟨"Error", "No refresh token found"⟩,
        { st with cookies := { st.cookies with accessToken := none, userData := none } })
  | some tok =>
      let ev : FetchEvent :=
        { kind := CallKind.refresh, endpoint := "/auth/refresh",
          headers := [("Authorization", "Bearer " ++ tok),
                      ("Content-Type", "application/json")],
          ctrl := st.nextCtrl, timeoutMs := REQUEST_TIMEOUT }
      let st1 : St :=
        { st with nextCtrl := st.nextCtrl + 1, events := st.events ++ [ev],
                  netIdx := st.netIdx + 1 }
      match net st.netIdx with
      | NetOutcome.err name msg =>
          if name = "AbortError" then
            (Except.error ⟨"Error",
               "Auth request timed out after " ++ toString REQUEST_TIMEOUT ++ "ms"⟩, st1)
          else
            (Except.error ⟨name, msg⟩, { st1 with cookies := clearAllCookies st1.cookies })
      | NetOutcome.success r =>
          if r.ok then
            if r.jsonOk then
              let t := jsStringOf r.access_token
              (Except.ok t,
                { st1 with cookies := { st1.cookies with accessToken := some t } })
            else
              (Except.error ⟨"SyntaxError", "Unexpected end of JSON input"⟩,
                { st1 with cookies := clearAllCookies st1.cookies })
          else
            (Except.error ⟨"Error", respErrMsg r ("HTTP error " ++ toString r.status)⟩,
              { st1 with cookies := clearAllCookies st1.cookies })

/-- The outer `catch` of `fetchWithAuth` (api.ts lines 201-205): an
`AbortError` is replaced by a timeout error, anything else is rethrown. -/
def mapAbort (e : JsError) : JsError :=
  if e.name = "AbortError" then
    ⟨"Error", "Request timed out after " ++ toString REQUEST_TIMEOUT ++ "ms"⟩
  else e

/-- The 401 branch of `fetchWithAuth` (api.ts lines 148-178).  Given the first
response `r` (and the state after the first fetch), either resolves to an early
result (`Sum.inl`: the `Authentication failed` path, which clears all cookies
and redirects to `/login`) or to the response the rest of the function
continues with (`Sum.inr`): `r` itself when its status is not 401, or the
response of the re-issued call — which is bound to the *same* abort controller
`ctrl` created at the start of the invocation — after a successful refresh.
A rejection of the re-issued fetch is caught by the same inner `catch` and so
also lands in the `Authentication failed` path. -/
def resolve401 (net : Nat → NetOutcome) (endpoint : String) (isFormData : Bool)
    (optHeaders : Option (List (String × String))) (ctrl : Nat) (r : HttpResp)
    (st1 : St) : (Except JsError RespValue × St) ⊕ (HttpResp × St) :=
  if r.status = 401 then
    match refreshTokenRun net st1 with
    | (Except.ok newToken, st2) =>
        let rheaders :=
          if isFormData then [("Authorization", "Bearer " ++ newToken)]
          else buildHeaders (some newToken) optHeaders
        let ev2 : FetchEvent :=
          { kind := CallKind.api, endpoint := endpoint, headers := rheaders,
            ctrl := ctrl, timeoutMs := REQUEST_TIMEOUT }
        let st3 : St :=
          { st2 with events := st2.events ++ [ev2], netIdx := st2.netIdx + 1 }
        match net st2.netIdx with
        | NetOutcome.err _ _ =>
            Sum.inl (Except.error ⟨"Error", "Authentication failed"⟩,
              { st3 with cookies := clearAllCookies st3.cookies,
                         redirect := some "/login" })
        | NetOutcome.success r2 => Sum.inr (r2, st3)
    | (Except.error _, st2) =>
        Sum.inl (Except.error ⟨"Error", "Authentication failed"⟩,
          { st2 with cookies := clearAllCookies st2.cookies,
                     redirect := some "/login" })
  else Sum.inr (r, st1)

/-- `fetchWithAuth` (api.ts lines 125-209).  Reads the access token
(`Cookies.get(...) || null`), creates a fresh 30000 ms abort controller for
this invocation, builds the headers (FormData branch or `buildHeaders`), and
issues the fetch.  A rejection of that fetch goes through the outer catch
(`mapAbort`).  A 401 response is resolved by `resolve401`.  Then: a non-ok
response with status ≥ 500 while `retries < MAX_RETRIES` waits
`min(1000 * 2 ^ retries, 10000)` ms and recurses with the counter incremented
(the recursive promise is returned directly, so its outcome does not pass
through this frame's catch); any other non-ok response throws
`errorData.message || 'API error: <status>'`; an ok response returns its blob
or parsed JSON (a JSON parse failure rethrows through the outer catch, whose
abort test does not fire on a `SyntaxError`). -/
def fetchWithAuthRun (net : Nat → NetOutcome) (endpoint : String)
    (opts : FetchOptions) (retries : Nat) (rt : RespType) (st : St) :
    Except JsError RespValue × St :=
  let token := jsOrNull st.cookies.accessToken
  let ctrl := st.nextCtrl
  let isFormData := opts.bodyIsFormData
  let headers := if isFormData then formDataHeaders token else buildHeaders token opts.headers
  let ev : FetchEvent :=
    { kind := CallKind.api, endpoint := endpoint, headers := headers,
      ctrl := ctrl, timeoutMs := REQUEST_TIMEOUT }
  let st1 : St :=
    { st with nextCtrl := st.nextCtrl + 1, events := st.events ++ [ev],
              netIdx := st.netIdx + 1 }
  match net st.netIdx with
  | NetOutcome.err name msg => (Except.error (mapAbort ⟨name, msg⟩), st1)
  | NetOutcome.success r =>
      match resolve401 net endpoint isFormData opts.headers ctrl r st1 with
      | Sum.inl out => out
      | Sum.inr (resp, st2) =>
          if hretry : resp.ok = false ∧ 500 ≤ resp.status ∧ retries < MAX_RETRIES then
            let backoffTime := min (1000 * 2 ^ retries) 10000
            fetchWithAuthRun net endpoint opts (retries + 1) rt
              { st2 with waits := st2.waits ++ [backoffTime] }
          else if resp.ok then
            match rt with
            | RespType.blob => (Except.ok (RespValue.blob resp.payload), st2)
            | RespType.json =>
                if resp.jsonOk then (Except.ok (RespValue.json resp.payload), st2)
                else (Except.error ⟨"SyntaxError", "Unexpected end of JSON input"⟩, st2)
          else
            (Except.error ⟨"Error", respErrMsg resp ("API error: " ++ toString resp.status)⟩,
              st2)
termination_by MAX_RETRIES - retries
decreasing_by
  simp only [MAX_RETRIES] at *
  omega

/-! ## Route-guarding middleware (`src/middleware.ts`) -/

/-- `middleware` (middleware.ts lines 4-18) as a function from the request path
and the `accessToken` cookie value to the redirect target (if any):
a request to `/login` with a (truthy) token redirects to `/dashboard`;
a request to any other path without a token redirects to `/login`. -/
def middleware (path : String) (accessTokenCookie : Option String) : Option String :=
  let isPublicPath := path == "/login"
  let token := accessTokenCookie.getD ""
  if isPublicPath && token != "" then some "/dashboard"
  else if !isPublicPath && token == "" then some "/login"
  else none

/-- The route set of `config.matcher = ['/', '/dashboard/:path*', '/login']`
(middleware.ts lines 20-22), under the Next.js matcher semantics:
`:path*` matches zero or more further segments, so `/dashboard/:path*` covers
`/dashboard` itself and everything below it. -/
def matcherMatches (path : String) : Bool :=
  path == "/" || (path == "/dashboard" || path.startsWith "/dashboard/") || path == "/login"

/-- The effective route guard: the middleware only runs on paths the matcher
selects; on every other path the request proceeds with no redirect. -/
def routeGuard (path : String) (accessTokenCookie : Option String) : Option String :=
  if matcherMatches path then middleware path accessTokenCookie else none

/-! ## Single-flight refresh: the event-loop interleaving model

The `refreshInProgress` module slot (api.ts line 58) is checked at line 63 and
assigned at line 78 with no `await` between the two (the cookie read and the
abort-controller creation are synchronous), so under the browser's cooperative
single-threaded scheduling a caller's check-then-set is atomic.  The model
therefore has one atomic `arrive` step per caller (with a refresh credential
present) and one `settle` step for the completion of the pending refresh's
network call, at which point the `finally` clause clears the slot. -/

/-- Outcome a refresh promise settles with. -/
inductive ROutcome where
  | ok (token : String)
  | fail (e : String)
deriving DecidableEq, Repr

/-- Events of the interleaved refresh system: caller `c` invokes
`refreshToken` (with a refresh credential stored), or the pending refresh's
network call settles with outcome `o`. -/
inductive REvent where
  | arrive (c : Nat)
  | settle (o : ROutcome)
deriving DecidableEq, Repr

/-- State of the refresh system: the `refreshInProgress` slot (holding the id
of the pending promise), the settled promises with their outcomes, which
promise each caller awaits, the number of network calls made to the refresh
endpoint, and the supply of promise ids. -/
structure RefreshState where
  pending : Option Nat
  settled : List (Nat × ROutcome)
  callers : List (Nat × Nat)
  netCalls : Nat
  nextP : Nat
deriving DecidableEq, Repr

/-- Initial state: no refresh pending, nothing settled, no callers. -/
def initRefresh : RefreshState :=
  { pending := none, settled := [], callers := [], netCalls := 0, nextP := 0 }

/-- One atomic step.  `arrive c`: if a refresh is pending the caller is handed
the pending promise (api.ts lines 63-65) — no new promise, no network call;
otherwise a fresh promise is created, installed in the slot, and one network
call to the refresh endpoint is issued (lines 78-121).  `settle o`: the pending
network call completes; the `finally` clause clears the slot and the promise
settles with `o`, which every awaiting caller observes.  `settle` without a
pending refresh cannot occur. -/
def rstep (s : RefreshState) : REvent → Option RefreshState
  | REvent.arrive c =>
      match s.pending with
      | some p => some { s with callers := s.callers ++ [(c, p)] }
      | none =>
          some { s with pending := some s.nextP,
                        callers := s.callers ++ [(c, s.nextP)],
                        netCalls := s.netCalls + 1,
                        nextP := s.nextP + 1 }
  | REvent.settle o =>
      match s.pending with
      | some p => some { s with pending := none, settled := s.settled ++ [(p, o)] }
      | none => none

/-- Run a trace of events from a state. -/
def rexec : RefreshState → List REvent → Option RefreshState
  | s, [] => some s
  | s, e :: t =>
      match rstep s e with
      | some s' => rexec s' t
      | none => none

/-! ## Derived definitions used by the development -/

def RInv (s : RefreshState) : Prop :=
  s.settled.length + (if s.pending.isSome then 1 else 0) = s.nextP ∧
  s.netCalls = s.nextP ∧
  (∀ p, s.pending = some p → ∀ o, (p, o) ∉ s.settled) ∧
  (s.settled.map Prod.fst).Nodup ∧
  (∀ c p, (c, p) ∈ s.callers → p < s.nextP) ∧
  (∀ p o, (p, o) ∈ s.settled → p < s.nextP) ∧
  (∀ p, s.pending = some p → p < s.nextP)

/-- The refresh event logged by a network-reaching `refreshTokenRun`. -/
def refreshEvent (st : St) (tok : String) : FetchEvent :=
  { kind := CallKind.refresh, endpoint := "/auth/refresh",
    headers := [("Authorization", "Bearer " ++ tok), ("Content-Type", "application/json")],
    ctrl := st.nextCtrl, timeoutMs := REQUEST_TIMEOUT }

/-- The first network call an invocation of `fetchWithAuthRun` performs: bound
to the controller freshly created at entry (`st.nextCtrl`) with the 30000 ms
timeout, carrying the headers built from the stored access token. -/
def firstEvent (endpoint : String) (opts : FetchOptions) (st : St) : FetchEvent :=
  { kind := CallKind.api, endpoint := endpoint,
    headers := (if opts.bodyIsFormData then formDataHeaders (jsOrNull st.cookies.accessToken)
                else buildHeaders (jsOrNull st.cookies.accessToken) opts.headers),
    ctrl := st.nextCtrl, timeoutMs := REQUEST_TIMEOUT }

/-- The re-issued request of the 401 branch, as logged: same endpoint, headers
rebuilt with the fresh token, bound to the controller `ctrl` created at the
start of the invocation. -/
def reissueEvent (endpoint : String) (opts : FetchOptions) (ctrl : Nat)
    (newToken : String) : FetchEvent :=
  { kind := CallKind.api, endpoint := endpoint,
    headers := (if opts.bodyIsFormData then [("Authorization", "Bearer " ++ newToken)]
                else buildHeaders (some newToken) opts.headers),
    ctrl := ctrl, timeoutMs := REQUEST_TIMEOUT }

def cookiesFull : Cookies := ⟨some "A", some "R", some "U", some "L"⟩

def netAbort : Nat → NetOutcome := fun _ => NetOutcome.err "AbortError" "signal is aborted"

/-! ### Concrete scenario oracles -/
def netOk200 : Nat → NetOutcome := fun _ => NetOutcome.success ⟨200, true, none, none, "ok"⟩

def net500seq : Nat → NetOutcome := fun n =>
  if n = 2 then NetOutcome.success ⟨200, true, none, none, "data"⟩
  else NetOutcome.success ⟨500, false, none, none, ""⟩

def net500all : Nat → NetOutcome := fun _ => NetOutcome.success ⟨500, false, none, none, ""⟩

def net401RefreshOk : Nat → NetOutcome := fun n =>
  if n = 1 then NetOutcome.success ⟨200, true, none, some "T2", ""⟩
  else NetOutcome.success ⟨401, false, none, none, ""⟩

def net401all : Nat → NetOutcome := fun _ => NetOutcome.success ⟨401, false, none, none, ""⟩

def net403 : Nat → NetOutcome := fun _ => NetOutcome.success ⟨403, true, some "Forbidden", none, ""⟩

def kindOf (e : FetchEvent) : CallKind := e.kind

def authHeaderOf (e : FetchEvent) : Option String := getHeader e.headers "Authorization"

def ctHeaderOf (e : FetchEvent) : Option String := getHeader e.headers "Content-Type"

/-- Cookie jar with no stored tokens apart from a refresh credential. -/
def noTokenCookies : Cookies := ⟨none, some "R", none, none⟩

/-- Cookie jar with an access token but no refresh credential. -/
def cookiesNoRefresh : Cookies := ⟨some "A", none, some "U", some "L"⟩

/-- Oracle: every fetch rejects with a generic network error. -/
def netTypeError : Nat → NetOutcome := fun _ => NetOutcome.err "TypeError" "Failed to fetch"

/-! ## Helper lemmas -/

theorem lookup_unique {l : List (Nat × ROutcome)} (hnd : (l.map Prod.fst).Nodup)
    {p : Nat} {o o' : ROutcome} (h1 : (p, o) ∈ l) (h2 : (p, o') ∈ l) : o = o' := by
  induction l with
  | nil => cases h1
  | cons hd tl ih =>
      simp only [List.map_cons, List.nodup_cons] at hnd
      rcases List.mem_cons.mp h1 with hA | hA
      · subst hA
        rcases List.mem_cons.mp h2 with hB | hB
        · exact (congrArg Prod.snd hB).symm
        · exact absurd (List.mem_map_of_mem Prod.fst hB) hnd.1
      · rcases List.mem_cons.mp h2 with hB | hB
        · subst hB
          exact (hnd.1 (by simpa using List.mem_map_of_mem Prod.fst hA)).elim
        · exact ih hnd.2 hA hB

theorem rstep_inv {s s' : RefreshState} (hinv : RInv s) {e : REvent}
    (h : rstep s e = some s') : RInv s' := by
  obtain ⟨h1, h2, h3, h4, h5, h6, h7⟩ := hinv
  cases e with
  | arrive c =>
      cases hp : s.pending with
      | some p =>
          simp only [rstep, hp, Option.some.injEq] at h
          subst h
          dsimp only [RInv]
          refine ⟨by simpa [hp] using h1, h2, ?_, h4, ?_, h6, ?_⟩
          · intro q hq o
            simp only [Option.some.injEq] at hq
            subst hq
            exact h3 p hp o
          · intro c' p' hm
            rcases List.mem_append.mp hm with hm | hm
            · exact h5 c' p' hm
            · simp only [List.mem_singleton, Prod.mk.injEq] at hm
              rw [hm.2]; exact h7 p hp
          · intro q hq
            simp only [Option.some.injEq] at hq
            subst hq
            exact h7 p hp
      | none =>
          simp only [rstep, hp, Option.some.injEq] at h
          subst h
          simp only [hp, Option.isSome_none, Bool.false_eq_true, if_false] at h1
          dsimp only [RInv]
          refine ⟨?_, ?_, ?_, h4, ?_, ?_, ?_⟩
          · simp only [Option.isSome_some, if_true]; omega
          · omega
          · intro q hq o hmem
            simp only [Option.some.injEq] at hq
            exact absurd (h6 q o hmem) (by omega)
          · intro c' p' hm
            rcases List.mem_append.mp hm with hm | hm
            · exact Nat.lt_succ_of_lt (h5 c' p' hm)
            · simp only [List.mem_singleton, Prod.mk.injEq] at hm; omega
          · intro q o hm; exact Nat.lt_succ_of_lt (h6 q o hm)
          · intro q hq; simp only [Option.some.injEq] at hq; omega
  | settle o =>
      cases hp : s.pending with
      | some p =>
          simp only [rstep, hp, Option.some.injEq] at h
          subst h
          simp only [hp, Option.isSome_some, if_true] at h1
          dsimp only [RInv]
          refine ⟨?_, h2, ?_, ?_, h5, ?_, ?_⟩
          · simp only [List.length_append, List.length_singleton, Option.isSome_none,
              Bool.false_eq_true, if_false]
            omega
          · intro q hq; cases hq
          · simp only [List.map_append, List.map_cons, List.map_nil]
            rw [List.nodup_append]
            refine ⟨h4, List.nodup_singleton p, ?_⟩
            intro a ha hb
            simp only [List.mem_singleton] at hb
            subst hb
            obtain ⟨⟨q, o'⟩, hm, hq⟩ := List.mem_map.mp ha
            dsimp only at hq
            subst hq
            exact h3 q hp o' hm
          · intro q o' hm
            rcases List.mem_append.mp hm with hm | hm
            · exact h6 q o' hm
            · simp only [List.mem_singleton, Prod.mk.injEq] at hm
              rw [hm.1]; exact h7 p hp
          · intro q hq; cases hq
      | none => simp [rstep, hp] at h

theorem rinv_init : RInv initRefresh := by
  refine ⟨rfl, rfl, ?_, List.nodup_nil, ?_, ?_, ?_⟩
  · intro p hp; cases hp
  · intro c p hm; cases hm
  · intro p o hm; cases hm
  · intro p hp; cases hp

theorem rexec_inv {t : List REvent} : ∀ {s s' : RefreshState},
    RInv s → rexec s t = some s' → RInv s' := by
  induction t with
  | nil =>
      intro s s' h hr
      simp only [rexec, Option.some.injEq] at hr
      rwa [← hr]
  | cons e t ih =>
      intro s s' h hr
      simp only [rexec] at hr
      cases hstep : rstep s e with
      | none => rw [hstep] at hr; cases hr
      | some s'' =>
          rw [hstep] at hr
          exact ih (rstep_inv h hstep) hr

/-! ### Header lemmas -/
theorem find?_map_set_self (tl : List (String × String)) (k v : String) :
    (tl.map (fun p => if p.1 == k then (k, v) else p)).find? (fun p => p.1 == k) =
      if tl.any (fun p => p.1 == k) then some (k, v) else none := by
  induction tl with
  | nil => rfl
  | cons hd tl ih =>
      simp only [List.map_cons, List.any_cons]
      by_cases hbeq : (hd.1 == k) = true
      · simp only [hbeq, if_true, Bool.true_or, List.find?_cons, beq_self_eq_true]
      · rw [Bool.not_eq_true] at hbeq
        simp only [hbeq, Bool.false_eq_true, if_false, Bool.false_or, List.find?_cons, hbeq]
        exact ih

theorem find?_append_single_self (hs : List (String × String)) (k v : String) :
    (hs ++ [(k, v)]).find? (fun p => p.1 == k) =
      match hs.find? (fun p => p.1 == k) with
      | some p => some p
      | none => some (k, v) := by
  induction hs with
  | nil => simp [List.find?_cons]
  | cons hd tl ih =>
      simp only [List.cons_append, List.find?_cons]
      by_cases hbeq : (hd.1 == k) = true
      · simp only [hbeq]
      · rw [Bool.not_eq_true] at hbeq
        simp only [hbeq]
        exact ih

theorem getHeader_setHeader_self (hs : List (String × String)) (k v : String) :
    getHeader (setHeader hs k v) k = some v := by
  unfold setHeader getHeader
  by_cases hany : hs.any (fun p => p.1 == k) = true
  · rw [if_pos hany, find?_map_set_self, if_pos hany]
    rfl
  · rw [Bool.not_eq_true] at hany
    rw [if_neg (by simp [hany]), find?_append_single_self]
    have hnone : hs.find? (fun p => p.1 == k) = none := by
      rw [List.find?_eq_none]
      intro p hp hc
      have := List.any_of_mem (p := fun q => q.1 == k) hp hc
      rw [hany] at this
      cases this
    rw [hnone]
    rfl

theorem find?_map_set_ne (tl : List (String × String)) (k' v k : String)
    (hne : (k' == k) = false) :
    (tl.map (fun p => if p.1 == k' then (k', v) else p)).find? (fun p => p.1 == k) =
      tl.find? (fun p => p.1 == k) := by
  induction tl with
  | nil => rfl
  | cons hd tl ih =>
      simp only [List.map_cons, List.find?_cons]
      by_cases hbeq : (hd.1 == k') = true
      · simp only [hbeq, if_true, List.find?_cons]
        have h1 : hd.1 = k' := eq_of_beq hbeq
        rw [h1]
        simp only [hne]
        exact ih
      · rw [Bool.not_eq_true] at hbeq
        simp only [hbeq, Bool.false_eq_true, if_false, List.find?_cons]
        by_cases hk : (hd.1 == k) = true
        · simp only [hk]
        · rw [Bool.not_eq_true] at hk
          simp only [hk]
          exact ih

theorem getHeader_setHeader_ne (hs : List (String × String)) (k' v k : String)
    (hne : (k' == k) = false) :
    getHeader (setHeader hs k' v) k = getHeader hs k := by
  unfold setHeader getHeader
  by_cases hany : hs.any (fun p => p.1 == k') = true
  · rw [if_pos hany, find?_map_set_ne _ _ _ _ hne]
  · rw [Bool.not_eq_true] at hany
    rw [if_neg (by simp [hany]), List.find?_append]
    cases hfind : hs.find? (fun p => p.1 == k) with
    | some p => rfl
    | none => simp [List.find?_cons, hne]

theorem getHeader_foldl_ne (ys : List (String × String)) (k : String)
    (hk : ∀ p ∈ ys, (p.1 == k) = false) :
    ∀ hs, getHeader (ys.foldl (fun acc kv => setHeader acc kv.1 kv.2) hs) k = getHeader hs k := by
  induction ys with
  | nil => intro hs; rfl
  | cons y ys ih =>
      intro hs
      simp only [List.foldl_cons]
      rw [ih (fun p hp => hk p (List.mem_cons_of_mem y hp))]
      exact getHeader_setHeader_ne hs y.1 y.2 k (hk y (List.mem_cons_self y ys))

theorem jsOrNull_ne_empty {x : Option String} {t : String} (h : jsOrNull x = some t) :
    t ≠ "" := by
  cases x with
  | none => cases h
  | some s =>
      simp only [jsOrNull] at h
      by_cases hs : s = ""
      · rw [if_pos hs] at h; cases h
      · rw [if_neg hs] at h
        injection h with h
        rw [← h]; exact hs

theorem buildHeaders_auth (t : String) (ht : t ≠ "") (existing : Option (List (String × String))) :
    getHeader (buildHeaders (some t) existing) "Authorization" = some ("Bearer " ++ t) := by
  unfold buildHeaders
  have hjt : jsTruthy (some t) = true := by simp [jsTruthy, ht]
  rw [hjt]
  simp only [if_true]
  exact getHeader_setHeader_self _ _ _

theorem buildHeaders_no_auth (existing : Option (List (String × String)))
    (hex : ∀ hs, existing = some hs → ∀ p ∈ hs, (p.1 == "Authorization") = false) :
    getHeader (buildHeaders none existing) "Authorization" = none := by
  unfold buildHeaders
  simp only [jsTruthy, Bool.false_eq_true, if_false]
  cases existing with
  | none => rfl
  | some hs =>
      simp only []
      rw [getHeader_foldl_ne hs _ (hex hs rfl)]
      rfl

theorem buildHeaders_ct (token : Option String) (existing : Option (List (String × String)))
    (hex : ∀ hs, existing = some hs → ∀ p ∈ hs, (p.1 == "Content-Type") = false) :
    getHeader (buildHeaders token existing) "Content-Type" = some "application/json" := by
  unfold buildHeaders
  cases existing with
  | none =>
      by_cases ht : jsTruthy token = true
      · rw [ht]
        simp only [if_true]
        rw [getHeader_setHeader_ne _ _ _ _ (by decide)]
        rfl
      · rw [Bool.not_eq_true] at ht
        rw [ht]
        simp only [Bool.false_eq_true, if_false]
        rfl
  | some hs =>
      by_cases ht : jsTruthy token = true
      · rw [ht]
        simp only [if_true]
        rw [getHeader_setHeader_ne _ _ _ _ (by decide)]
        rw [getHeader_foldl_ne hs _ (hex hs rfl)]
        rfl
      · rw [Bool.not_eq_true] at ht
        rw [ht]
        simp only [Bool.false_eq_true, if_false]
        rw [getHeader_foldl_ne hs _ (hex hs rfl)]
        rfl

theorem getHeader_single (k v : String) : getHeader [(k, v)] k = some v := by
  simp [getHeader, List.find?_cons]

theorem formDataHeaders_no_ct (token : Option String) :
    getHeader (formDataHeaders token) "Content-Type" = none := by
  simp [formDataHeaders, getHeader, List.find?_cons]

theorem formDataHeaders_auth (token : Option String) :
    getHeader (formDataHeaders token) "Authorization" =
      some (if jsTruthy token then "Bearer " ++ (token.getD "") else "") := by
  simp [formDataHeaders, getHeader, List.find?_cons]

/-- C6: no refresh credential → no network call, access token and user data
cleared, immediate `No refresh token found` failure. -/
theorem refresh_no_credential (net : Nat → NetOutcome) (st : St)
    (h : jsOrNull st.cookies.refreshToken = none) :
    refreshTokenRun net st =
      (Except.error ⟨"Error", "No refresh token found"⟩,
       { st with cookies := { st.cookies with accessToken := none, userData := none } }) := by
  unfold refreshTokenRun
  rw [h]

/-- Helper: 5xx status means not ok. -/
theorem not_ok_of_ge_500 (r : HttpResp) (h : 500 ≤ r.status) : r.ok = false := by
  simp only [HttpResp.ok, Bool.and_eq_false_iff]
  right
  simp only [decide_eq_false_iff_not, not_lt]
  omega

/-- C3 general step: a ≥500 response below the retry cap waits the backoff and
recurses with the counter incremented. -/
theorem fetch_5xx_step (net : Nat → NetOutcome) (endpoint : String) (opts : FetchOptions)
    (retries : Nat) (rt : RespType) (st : St) (r : HttpResp)
    (hnet : net st.netIdx = NetOutcome.success r) (h5 : 500 ≤ r.status)
    (hlt : retries < MAX_RETRIES) :
    fetchWithAuthRun net endpoint opts retries rt st =
      fetchWithAuthRun net endpoint opts (retries + 1) rt
        { st with nextCtrl := st.nextCtrl + 1,
                  events := st.events ++ [⟨CallKind.api, endpoint,
                    (if opts.bodyIsFormData then formDataHeaders (jsOrNull st.cookies.accessToken)
                     else buildHeaders (jsOrNull st.cookies.accessToken) opts.headers),
                    st.nextCtrl, REQUEST_TIMEOUT⟩],
                  netIdx := st.netIdx + 1,
                  waits := st.waits ++ [min (1000 * 2 ^ retries) 10000] } := by
  have hok : r.ok = false := not_ok_of_ge_500 r h5
  have h401 : ¬ r.status = 401 := by omega
  rw [fetchWithAuthRun.eq_def]
  simp only [hnet, resolve401, h401, if_false, reduceIte]
  rw [dif_pos ⟨hok, h5, hlt⟩]

/-- `refreshTokenRun` only appends to the event log. -/
theorem refresh_events (net : Nat → NetOutcome) (st : St) :
    ∃ mid, (refreshTokenRun net st).2.events = st.events ++ mid := by
  cases hcred : jsOrNull st.cookies.refreshToken with
  | none =>
      refine ⟨[], ?_⟩
      rw [refresh_no_credential net st hcred]
      simp
  | some tok =>
      unfold refreshTokenRun
      rw [hcred]
      cases hnet : net st.netIdx with
      | err name msg =>
          simp only [hnet]
          by_cases hab : name = "AbortError"
          · rw [if_pos hab]
            exact ⟨[refreshEvent st tok], rfl⟩
          · rw [if_neg hab]
            exact ⟨[refreshEvent st tok], rfl⟩
      | success r =>
          simp only [hnet]
          by_cases hok : r.ok = true
          · rw [if_pos hok]
            by_cases hj : r.jsonOk = true
            · rw [if_pos hj]
              exact ⟨[refreshEvent st tok], rfl⟩
            · rw [if_neg hj]
              exact ⟨[refreshEvent st tok], rfl⟩
          · rw [if_neg hok]
            exact ⟨[refreshEvent st tok], rfl⟩

/-- `resolve401` only appends to the event log (early-exit arm). -/
theorem resolve401_inl_events (net : Nat → NetOutcome) (endpoint : String) (fd : Bool)
    (oh : Option (List (String × String))) (ctrl : Nat) (r : HttpResp) (st1 : St)
    (out : Except JsError RespValue × St)
    (h : resolve401 net endpoint fd oh ctrl r st1 = Sum.inl out) :
    ∃ mid, out.2.events = st1.events ++ mid := by
  unfold resolve401 at h
  by_cases h401 : r.status = 401
  · rw [if_pos h401] at h
    rcases hrt : refreshTokenRun net st1 with ⟨res, st2⟩
    obtain ⟨mid, hmid⟩ := refresh_events net st1
    rw [hrt] at h hmid
    simp only at hmid
    cases res with
    | ok newToken =>
        simp only at h
        cases hnet2 : net st2.netIdx with
        | err n m =>
            rw [hnet2] at h
            simp only [Sum.inl.injEq] at h
            rw [← h]
            exact ⟨mid ++ [⟨CallKind.api, endpoint,
              (if fd then [("Authorization", "Bearer " ++ newToken)]
               else buildHeaders (some newToken) oh), ctrl, REQUEST_TIMEOUT⟩],
              by simp [hmid]⟩
        | success r2 =>
            rw [hnet2] at h
            cases h
    | error e =>
        simp only [Sum.inl.injEq] at h
        rw [← h]
        exact ⟨mid, hmid⟩
  · rw [if_neg h401] at h
    cases h

/-- `resolve401` only appends to the event log (continuation arm). -/
theorem resolve401_inr_events (net : Nat → NetOutcome) (endpoint : String) (fd : Bool)
    (oh : Option (List (String × String))) (ctrl : Nat) (r : HttpResp) (st1 : St)
    (resp : HttpResp) (st2 : St)
    (h : resolve401 net endpoint fd oh ctrl r st1 = Sum.inr (resp, st2)) :
    ∃ mid, st2.events = st1.events ++ mid := by
  unfold resolve401 at h
  by_cases h401 : r.status = 401
  · rw [if_pos h401] at h
    rcases hrt : refreshTokenRun net st1 with ⟨res, st2'⟩
    obtain ⟨mid, hmid⟩ := refresh_events net st1
    rw [hrt] at h hmid
    simp only at hmid
    cases res with
    | ok newToken =>
        simp only at h
        cases hnet2 : net st2'.netIdx with
        | err n m =>
            rw [hnet2] at h
            cases h
        | success r2 =>
            rw [hnet2] at h
            simp only [Sum.inr.injEq, Prod.mk.injEq] at h
            rw [← h.2]
            exact ⟨mid ++ [⟨CallKind.api, endpoint,
              (if fd then [("Authorization", "Bearer " ++ newToken)]
               else buildHeaders (some newToken) oh), ctrl, REQUEST_TIMEOUT⟩],
              by simp [hmid]⟩
    | error e =>
        cases h
  · rw [if_neg h401] at h
    simp only [Sum.inr.injEq, Prod.mk.injEq] at h
    rw [← h.2]
    exact ⟨[], by simp⟩

theorem fwa_first_event : ∀ (fuel retries : Nat), MAX_RETRIES - retries ≤ fuel →
    ∀ (net : Nat → NetOutcome) (endpoint : String) (opts : FetchOptions) (rt : RespType) (st : St),
    ∃ tail, (fetchWithAuthRun net endpoint opts retries rt st).2.events =
      st.events ++ firstEvent endpoint opts st :: tail := by
  intro fuel
  induction fuel with
  | zero =>
      intro retries hfuel net endpoint opts rt st
      rw [fetchWithAuthRun.eq_def]
      cases hnet : net st.netIdx with
      | err name msg =>
          simp only [hnet]
          exact ⟨[], by simp [firstEvent]⟩
      | success r =>
          simp only [hnet]
          split
          next out heq =>
            obtain ⟨mid, hmid⟩ := resolve401_inl_events _ _ _ _ _ _ _ _ heq
            exact ⟨mid, by simp [hmid, firstEvent]⟩
          next resp st2 heq =>
            obtain ⟨mid, hmid⟩ := resolve401_inr_events _ _ _ _ _ _ _ _ _ heq
            split
            next hretry => exact absurd hretry.2.2 (by omega)
            next hretry =>
              have hgoal : st2.events = st.events ++ firstEvent endpoint opts st :: mid := by
                simp [hmid, firstEvent]
              refine ⟨mid, ?_⟩
              split
              all_goals try split
              all_goals try split
              all_goals simpa using hgoal
  | succ fuel ih =>
      intro retries hfuel net endpoint opts rt st
      rw [fetchWithAuthRun.eq_def]
      cases hnet : net st.netIdx with
      | err name msg =>
          simp only [hnet]
          exact ⟨[], by simp [firstEvent]⟩
      | success r =>
          simp only [hnet]
          split
          next out heq =>
            obtain ⟨mid, hmid⟩ := resolve401_inl_events _ _ _ _ _ _ _ _ heq
            exact ⟨mid, by simp [hmid, firstEvent]⟩
          next resp st2 heq =>
            obtain ⟨mid, hmid⟩ := resolve401_inr_events _ _ _ _ _ _ _ _ _ heq
            split
            next hretry =>
              obtain ⟨tail2, htail2⟩ := ih (retries + 1) (by omega) net endpoint opts rt
                { st2 with waits := st2.waits ++ [min (1000 * 2 ^ retries) 10000] }
              refine ⟨mid ++ firstEvent endpoint opts
                { st2 with waits := st2.waits ++ [min (1000 * 2 ^ retries) 10000] } :: tail2, ?_⟩
              rw [htail2]
              simp [hmid, firstEvent]
            next hretry =>
              have hgoal : st2.events = st.events ++ firstEvent endpoint opts st :: mid := by
                simp [hmid, firstEvent]
              refine ⟨mid, ?_⟩
              split
              all_goals try split
              all_goals try split
              all_goals simpa using hgoal

/-- `fetchWithAuthRun` only appends to the event log. -/
theorem fwa_events_ext (net : Nat → NetOutcome) (endpoint : String) (opts : FetchOptions)
    (retries : Nat) (rt : RespType) (st : St) :
    ∃ tail, (fetchWithAuthRun net endpoint opts retries rt st).2.events = st.events ++ tail := by
  obtain ⟨tail, h⟩ := fwa_first_event MAX_RETRIES retries (by omega) net endpoint opts rt st
  exact ⟨firstEvent endpoint opts st :: tail, h⟩

/-- One unfolding of `fetchWithAuthRun`, with the first logged call named via
`firstEvent`. -/
theorem fwa_unfold (net : Nat → NetOutcome) (endpoint : String) (opts : FetchOptions)
    (retries : Nat) (rt : RespType) (st : St) :
    fetchWithAuthRun net endpoint opts retries rt st =
      (let st1 : St :=
         { st with nextCtrl := st.nextCtrl + 1,
                   events := st.events ++ [firstEvent endpoint opts st],
                   netIdx := st.netIdx + 1 }
       match net st.netIdx with
       | NetOutcome.err name msg => (Except.error (mapAbort ⟨name, msg⟩), st1)
       | NetOutcome.success r =>
         match resolve401 net endpoint opts.bodyIsFormData opts.headers st.nextCtrl r st1 with
         | Sum.inl out => out
         | Sum.inr (resp, st2) =>
             if resp.ok = false ∧ 500 ≤ resp.status ∧ retries < MAX_RETRIES then
               fetchWithAuthRun net endpoint opts (retries + 1) rt
                 { st2 with waits := st2.waits ++ [min (1000 * 2 ^ retries) 10000] }
             else if resp.ok then
               match rt with
               | RespType.blob => (Except.ok (RespValue.blob resp.payload), st2)
               | RespType.json =>
                   if resp.jsonOk then (Except.ok (RespValue.json resp.payload), st2)
                   else (Except.error ⟨"SyntaxError", "Unexpected end of JSON input"⟩, st2)
             else
               (Except.error ⟨"Error", respErrMsg resp ("API error: " ++ toString resp.status)⟩,
                 st2)) := by
  rw [fetchWithAuthRun.eq_def]
  rfl

/-- `resolve401` on a non-401 response is the identity continuation. -/
theorem resolve401_not401 (net : Nat → NetOutcome) (endpoint : String) (fd : Bool)
    (oh : Option (List (String × String))) (ctrl : Nat) (r : HttpResp) (st1 : St)
    (h401 : ¬ r.status = 401) :
    resolve401 net endpoint fd oh ctrl r st1 = Sum.inr (r, st1) := by
  unfold resolve401
  rw [if_neg h401]

/-- Shape of a successful `refreshTokenRun`: new access token stored and
returned, one refresh network call logged on a fresh controller. -/
theorem refresh_success (net : Nat → NetOutcome) (st : St) (tok : String) (rr : HttpResp)
    (hcred : jsOrNull st.cookies.refreshToken = some tok)
    (hnet : net st.netIdx = NetOutcome.success rr)
    (hok : rr.ok = true) (hj : rr.jsonOk = true) :
    refreshTokenRun net st =
      (Except.ok (jsStringOf rr.access_token),
       { st with cookies := { st.cookies with accessToken := some (jsStringOf rr.access_token) },
                 events := st.events ++ [refreshEvent st tok],
                 nextCtrl := st.nextCtrl + 1,
                 netIdx := st.netIdx + 1 }) := by
  unfold refreshTokenRun
  rw [hcred]
  simp only [hnet]
  rw [if_pos hok, if_pos hj]
  rfl

/-- Shape of `resolve401` on a 401 response whose refresh succeeds. -/
theorem resolve401_401_shape (net : Nat → NetOutcome) (endpoint : String) (fd : Bool)
    (oh : Option (List (String × String))) (ctrl : Nat) (r : HttpResp) (st1 : St)
    (rtok : String) (rr : HttpResp)
    (h401 : r.status = 401)
    (hcred : jsOrNull st1.cookies.refreshToken = some rtok)
    (hnet1 : net st1.netIdx = NetOutcome.success rr)
    (hok : rr.ok = true) (hj : rr.jsonOk = true) :
    resolve401 net endpoint fd oh ctrl r st1 =
      (let newToken := jsStringOf rr.access_token
       let st2 : St :=
         { st1 with
           cookies := { st1.cookies with accessToken := some newToken },
           events := st1.events ++ [refreshEvent st1 rtok],
           nextCtrl := st1.nextCtrl + 1, netIdx := st1.netIdx + 1 }
       let ev2 : FetchEvent :=
         { kind := CallKind.api, endpoint := endpoint,
           headers := (if fd then [("Authorization", "Bearer " ++ newToken)]
                       else buildHeaders (some newToken) oh),
           ctrl := ctrl, timeoutMs := REQUEST_TIMEOUT }
       let st3 : St := { st2 with events := st2.events ++ [ev2], netIdx := st2.netIdx + 1 }
       match net st2.netIdx with
       | NetOutcome.err _ _ =>
           Sum.inl (Except.error ⟨"Error", "Authentication failed"⟩,
             { st3 with cookies := clearAllCookies st3.cookies, redirect := some "/login" })
       | NetOutcome.success r2 => Sum.inr (r2, st3)) := by
  unfold resolve401
  rw [if_pos h401, refresh_success net st1 rtok rr hcred hnet1 hok hj]

/-- C10 part two: a ≥500-triggered retry is a fresh recursive invocation whose
first network call is bound to a new abort controller (`st.nextCtrl + 1`) with
its own 30000 ms window. -/
theorem retry_fresh_controller (net : Nat → NetOutcome) (endpoint : String)
    (opts : FetchOptions) (retries : Nat) (rt : RespType) (st : St) (r : HttpResp)
    (hnet : net st.netIdx = NetOutcome.success r) (h5 : 500 ≤ r.status)
    (hlt : retries < MAX_RETRIES) :
    ∃ ev2 tail,
      (fetchWithAuthRun net endpoint opts retries rt st).2.events =
        st.events ++ firstEvent endpoint opts st :: ev2 :: tail ∧
      (firstEvent endpoint opts st).ctrl = st.nextCtrl ∧
      (firstEvent endpoint opts st).timeoutMs = REQUEST_TIMEOUT ∧
      ev2.kind = CallKind.api ∧ ev2.endpoint = endpoint ∧
      ev2.ctrl = st.nextCtrl + 1 ∧ ev2.timeoutMs = REQUEST_TIMEOUT := by
  rw [fetch_5xx_step net endpoint opts retries rt st r hnet h5 hlt]
  set st' : St :=
    { st with nextCtrl := st.nextCtrl + 1,
              events := st.events ++ [⟨CallKind.api, endpoint,
                (if opts.bodyIsFormData then formDataHeaders (jsOrNull st.cookies.accessToken)
                 else buildHeaders (jsOrNull st.cookies.accessToken) opts.headers),
                st.nextCtrl, REQUEST_TIMEOUT⟩],
              netIdx := st.netIdx + 1,
              waits := st.waits ++ [min (1000 * 2 ^ retries) 10000] } with hst
  obtain ⟨tail2, htail⟩ := fwa_first_event MAX_RETRIES (retries + 1) (by omega)
    net endpoint opts rt st'
  refine ⟨firstEvent endpoint opts st', tail2, ?_, rfl, rfl, rfl, rfl, rfl, rfl⟩
  rw [htail, hst]
  simp [firstEvent]

/-- C10 part one: after a 401 and a successful refresh, the re-issued request
is bound to the same abort controller created at the start of the invocation
(`st.nextCtrl`, 30000 ms window), while the refresh call used a fresh one. -/
theorem reissue_shares_controller (net : Nat → NetOutcome) (endpoint : String)
    (opts : FetchOptions) (retries : Nat) (rt : RespType) (st : St) (r rr : HttpResp)
    (rtok : String)
    (hnet : net st.netIdx = NetOutcome.success r) (h401 : r.status = 401)
    (hcred : jsOrNull st.cookies.refreshToken = some rtok)
    (hnet1 : net (st.netIdx + 1) = NetOutcome.success rr)
    (hok : rr.ok = true) (hj : rr.jsonOk = true) :
    ∃ ev3 tail,
      (fetchWithAuthRun net endpoint opts retries rt st).2.events =
        st.events ++ firstEvent endpoint opts st ::
          ({ kind := CallKind.refresh, endpoint := "/auth/refresh",
             headers := [("Authorization", "Bearer " ++ rtok),
                         ("Content-Type", "application/json")],
             ctrl := st.nextCtrl + 1, timeoutMs := REQUEST_TIMEOUT } : FetchEvent) ::
          ev3 :: tail ∧
      (firstEvent endpoint opts st).ctrl = st.nextCtrl ∧
      (firstEvent endpoint opts st).timeoutMs = REQUEST_TIMEOUT ∧
      ev3.kind = CallKind.api ∧ ev3.endpoint = endpoint ∧
      ev3.ctrl = st.nextCtrl ∧ ev3.timeoutMs = REQUEST_TIMEOUT := by
  rw [fwa_unfold]
  simp only [hnet]
  rw [resolve401_401_shape net endpoint opts.bodyIsFormData opts.headers st.nextCtrl r
    { st with nextCtrl := st.nextCtrl + 1,
              events := st.events ++ [firstEvent endpoint opts st],
              netIdx := st.netIdx + 1 } rtok rr h401 hcred hnet1 hok hj]
  dsimp only
  cases hnet2 : net (st.netIdx + 1 + 1) with
  | err n m =>
      simp only [hnet2]
      refine ⟨reissueEvent endpoint opts st.nextCtrl (jsStringOf rr.access_token), [],
        ?_, rfl, rfl, rfl, rfl, rfl, rfl⟩
      simp [refreshEvent, reissueEvent]
  | success r2 =>
      simp only [hnet2]
      split
      next hretry =>
          obtain ⟨tail2, htail2⟩ := fwa_events_ext net endpoint opts (retries + 1) rt _
          refine ⟨reissueEvent endpoint opts st.nextCtrl (jsStringOf rr.access_token), tail2,
            ?_, rfl, rfl, rfl, rfl, rfl, rfl⟩
          rw [htail2]
          simp [refreshEvent, reissueEvent]
      next hretry =>
          refine ⟨reissueEvent endpoint opts st.nextCtrl (jsStringOf rr.access_token), [],
            ?_, rfl, rfl, rfl, rfl, rfl, rfl⟩
          split
          all_goals try split
          all_goals try split
          all_goals simp_all [refreshEvent, reissueEvent]

/-- `resolve401` on a 401 with no stored refresh credential: authentication
failure, all cookies cleared, redirect to the login route. -/
theorem resolve401_401_nocred (net : Nat → NetOutcome) (endpoint : String) (fd : Bool)
    (oh : Option (List (String × String))) (ctrl : Nat) (r : HttpResp) (st1 : St)
    (h401 : r.status = 401) (hcred : jsOrNull st1.cookies.refreshToken = none) :
    resolve401 net endpoint fd oh ctrl r st1 =
      Sum.inl (Except.error ⟨"Error", "Authentication failed"⟩,
        { st1 with cookies := clearAllCookies st1.cookies, redirect := some "/login" }) := by
  unfold resolve401
  rw [if_pos h401, refresh_no_credential net st1 hcred]
  rfl

/-- C5 general part: a 401 whose refresh fails for lack of a stored refresh
credential ends the call with `Authentication failed`, all four cookies
cleared, a redirect to `/login`, and no further network call. -/
theorem fetch_401_refresh_fail (net : Nat → NetOutcome) (endpoint : String)
    (opts : FetchOptions) (retries : Nat) (rt : RespType) (st : St) (r : HttpResp)
    (hnet : net st.netIdx = NetOutcome.success r) (h401 : r.status = 401)
    (hcred : jsOrNull st.cookies.refreshToken = none) :
    fetchWithAuthRun net endpoint opts retries rt st =
      (Except.error ⟨"Error", "Authentication failed"⟩,
       { st with cookies := clearAllCookies st.cookies,
                 events := st.events ++ [firstEvent endpoint opts st],
                 nextCtrl := st.nextCtrl + 1,
                 netIdx := st.netIdx + 1,
                 redirect := some "/login" }) := by
  rw [fwa_unfold]
  simp only [hnet]
  rw [resolve401_401_nocred net endpoint opts.bodyIsFormData opts.headers st.nextCtrl r
    { st with nextCtrl := st.nextCtrl + 1,
              events := st.events ++ [firstEvent endpoint opts st],
              netIdx := st.netIdx + 1 } h401 hcred]
/-! ## Claim theorems and witnesses -/

/-- C1: single-flight refresh.  In every reachable state of the interleaved
refresh system: every started refresh is either the unique pending one or
settled (at most one outstanding refresh); the number of network calls to the
refresh endpoint equals the number of refresh operations started (one call per
group of callers); a settled refresh promise has a unique outcome, so all its
awaiting callers observe the same success or failure; every caller awaits a
real refresh promise; and a caller arriving while a refresh is pending is
handed exactly the pending promise, with no new network call. -/
theorem single_flight_refresh (t : List REvent) (s : RefreshState)
    (h : rexec initRefresh t = some s) :
    (s.settled.length + (if s.pending.isSome then 1 else 0) = s.nextP) ∧
    s.netCalls = s.nextP ∧
    (∀ p o o', (p, o) ∈ s.settled → (p, o') ∈ s.settled → o = o') ∧
    (∀ c p, (c, p) ∈ s.callers → p < s.nextP) ∧
    (∀ c p, s.pending = some p →
      rstep s (REvent.arrive c) = some { s with callers := s.callers ++ [(c, p)] }) := by
  obtain ⟨h1, h2, h3, h4, h5, h6, h7⟩ := rexec_inv rinv_init h
  refine ⟨h1, h2, ?_, h5, ?_⟩
  · intro p o o' hm hm'
    exact lookup_unique h4 hm hm'
  · intro c p hp
    simp [rstep, hp]

/-- C1 witness: the invariants at the state reached by two concurrent callers
followed by the settling of their shared refresh. -/
theorem single_flight_refresh_witness :
    (let s : RefreshState :=
      { pending := none, settled := [(0, ROutcome.ok "T")],
        callers := [(0, 0), (1, 0)], netCalls := 1, nextP := 1 };
    (s.settled.length + (if s.pending.isSome then 1 else 0) = s.nextP) ∧
    s.netCalls = s.nextP ∧
    (∀ p o o', (p, o) ∈ s.settled → (p, o') ∈ s.settled → o = o') ∧
    (∀ c p, (c, p) ∈ s.callers → p < s.nextP) ∧
    (∀ c p, s.pending = some p →
      rstep s (REvent.arrive c) = some { s with callers := s.callers ++ [(c, p)] })) :=
  single_flight_refresh
    [REvent.arrive 0, REvent.arrive 1, REvent.settle (ROutcome.ok "T")] _ rfl

/-- C2 counterexample: when the refresh call times out (`AbortError`), the
failure propagates as the distinct timeout error but the four session entries
are NOT cleared — the whole cookie jar, including the refresh credential, is
left in place, contradicting the claim that every network-reaching failure
clears all four entries. -/
theorem refresh_timeout_keeps_session :
    (refreshTokenRun netAbort (initSt cookiesFull)).1 =
      Except.error ⟨"Error", "Auth request timed out after 30000ms"⟩ ∧
    (refreshTokenRun netAbort (initSt cookiesFull)).2.cookies = cookiesFull ∧
    (refreshTokenRun netAbort (initSt cookiesFull)).2.events.length = 1 ∧
    (refreshTokenRun netAbort (initSt cookiesFull)).2.cookies.refreshToken = some "R" := by
  refine ⟨rfl, rfl, rfl, rfl⟩

/-- C2 (amended): for every network-reaching failing execution of refreshToken
other than a timeout — a rejection with any non-AbortError name, a non-ok
response, or an ok response whose body fails to parse — all four session
entries are cleared before the failure propagates; a timeout (`AbortError`)
propagates the distinct timeout error with the session entries left
untouched. -/
theorem refresh_failure_clearing_policy (net : Nat → NetOutcome) (st : St) (tok : String)
    (hcred : jsOrNull st.cookies.refreshToken = some tok) :
    (∀ name msg, net st.netIdx = NetOutcome.err name msg → name ≠ "AbortError" →
        (refreshTokenRun net st).1 = Except.error ⟨name, msg⟩ ∧
        (refreshTokenRun net st).2.cookies = clearAllCookies st.cookies) ∧
    (∀ r, net st.netIdx = NetOutcome.success r → r.ok = false →
        (refreshTokenRun net st).1 =
          Except.error ⟨"Error", respErrMsg r ("HTTP error " ++ toString r.status)⟩ ∧
        (refreshTokenRun net st).2.cookies = clearAllCookies st.cookies) ∧
    (∀ r, net st.netIdx = NetOutcome.success r → r.ok = true → r.jsonOk = false →
        (refreshTokenRun net st).1 = Except.error ⟨"SyntaxError", "Unexpected end of JSON input"⟩ ∧
        (refreshTokenRun net st).2.cookies = clearAllCookies st.cookies) ∧
    (∀ msg, net st.netIdx = NetOutcome.err "AbortError" msg →
        (refreshTokenRun net st).1 =
          Except.error ⟨"Error", "Auth request timed out after 30000ms"⟩ ∧
        (refreshTokenRun net st).2.cookies = st.cookies) := by
  refine ⟨?_, ?_, ?_, ?_⟩
  · intro name msg hnet hab
    unfold refreshTokenRun
    rw [hcred]
    simp only [hnet]
    rw [if_neg hab]
    exact ⟨rfl, rfl⟩
  · intro r hnet hok
    unfold refreshTokenRun
    rw [hcred]
    simp only [hnet]
    rw [if_neg (by simp [hok])]
    exact ⟨rfl, rfl⟩
  · intro r hnet hok hj
    unfold refreshTokenRun
    rw [hcred]
    simp only [hnet]
    rw [if_pos hok, if_neg (by simp [hj])]
    exact ⟨rfl, rfl⟩
  · intro msg hnet
    unfold refreshTokenRun
    rw [hcred]
    simp only [hnet]
    rw [if_pos trivial]
    exact ⟨rfl, rfl⟩

/-- C2 witness: a refresh rejected with a plain network error clears the
session. -/
theorem refresh_failure_clearing_policy_witness :
    (refreshTokenRun netTypeError (initSt cookiesFull)).1 =
      Except.error ⟨"TypeError", "Failed to fetch"⟩ ∧
    (refreshTokenRun netTypeError (initSt cookiesFull)).2.cookies =
      clearAllCookies (initSt cookiesFull).cookies :=
  (refresh_failure_clearing_policy netTypeError (initSt cookiesFull) "R" rfl).1
    "TypeError" "Failed to fetch" rfl (by decide)

/-- C3: a ≥500 response while the retry counter is below `MAX_RETRIES` waits
exactly `min (1000 * 2 ^ retries) 10000` ms and repeats the whole operation
with the counter incremented; concretely, 500 on attempts 0 and 1 and 200 on
attempt 2 yields exactly 3 network calls with waits of 1000 ms then 2000 ms
before succeeding, and 500 on every attempt yields exactly 3 network calls
before failing with `API error: 500`. -/
theorem backoff_retry_policy :
    (∀ (net : Nat → NetOutcome) (endpoint : String) (opts : FetchOptions) (retries : Nat)
       (rt : RespType) (st : St) (r : HttpResp),
       net st.netIdx = NetOutcome.success r → 500 ≤ r.status → retries < MAX_RETRIES →
       fetchWithAuthRun net endpoint opts retries rt st =
         fetchWithAuthRun net endpoint opts (retries + 1) rt
           { st with nextCtrl := st.nextCtrl + 1,
                     events := st.events ++ [firstEvent endpoint opts st],
                     netIdx := st.netIdx + 1,
                     waits := st.waits ++ [min (1000 * 2 ^ retries) 10000] }) ∧
    ((fetchWithAuthRun net500seq "/x" ⟨false, none⟩ 0 RespType.json (initSt cookiesFull)).1 =
        Except.ok (RespValue.json "data") ∧
     (fetchWithAuthRun net500seq "/x" ⟨false, none⟩ 0 RespType.json (initSt cookiesFull)).2.waits =
        [1000, 2000] ∧
     (fetchWithAuthRun net500seq "/x" ⟨false, none⟩ 0 RespType.json
        (initSt cookiesFull)).2.events.length = 3) ∧
    ((fetchWithAuthRun net500all "/x" ⟨false, none⟩ 0 RespType.json (initSt cookiesFull)).1 =
        Except.error ⟨"Error", "API error: 500"⟩ ∧
     (fetchWithAuthRun net500all "/x" ⟨false, none⟩ 0 RespType.json (initSt cookiesFull)).2.waits =
        [1000, 2000] ∧
     (fetchWithAuthRun net500all "/x" ⟨false, none⟩ 0 RespType.json
        (initSt cookiesFull)).2.events.length = 3) := by
  refine ⟨fetch_5xx_step, ⟨?_, ?_, ?_⟩, ⟨?_, ?_, ?_⟩⟩ <;>
    simp [fetchWithAuthRun, net500seq, net500all, resolve401, initSt, cookiesFull, jsOrNull,
      buildHeaders, setHeader, jsTruthy, HttpResp.ok, MAX_RETRIES, respErrMsg]
  all_goals rfl

/-- C3 witness: the general step instantiated at the all-500 oracle. -/
theorem backoff_retry_policy_witness :
    fetchWithAuthRun net500all "/x" ⟨false, none⟩ 0 RespType.json (initSt cookiesFull) =
      fetchWithAuthRun net500all "/x" ⟨false, none⟩ (0 + 1) RespType.json
        { initSt cookiesFull with
          nextCtrl := (initSt cookiesFull).nextCtrl + 1,
          events := (initSt cookiesFull).events ++
            [firstEvent "/x" ⟨false, none⟩ (initSt cookiesFull)],
          netIdx := (initSt cookiesFull).netIdx + 1,
          waits := (initSt cookiesFull).waits ++ [min (1000 * 2 ^ 0) 10000] } :=
  backoff_retry_policy.1 net500all "/x" ⟨false, none⟩ 0 RespType.json (initSt cookiesFull)
    ⟨500, false, none, none, ""⟩ rfl (by decide) (by decide)

/-- C4: a client-error response other than 401 (4xx) ends the call after
exactly one network call: the final state extends the event log by the single
request event only, waits, cookies and redirect are untouched (no backoff, no
retry, no refresh), and the error message is the parsed body message when
present and truthy and the generic `API error: <status>` otherwise
(`respErrMsg`). -/
theorem client_error_fatal (net : Nat → NetOutcome) (endpoint : String) (opts : FetchOptions)
    (retries : Nat) (rt : RespType) (st : St) (r : HttpResp)
    (hnet : net st.netIdx = NetOutcome.success r)
    (h400 : 400 ≤ r.status) (h500 : r.status < 500) (h401 : r.status ≠ 401) :
    fetchWithAuthRun net endpoint opts retries rt st =
      (Except.error ⟨"Error", respErrMsg r ("API error: " ++ toString r.status)⟩,
       { st with nextCtrl := st.nextCtrl + 1,
                 events := st.events ++ [⟨CallKind.api, endpoint,
                   (if opts.bodyIsFormData then formDataHeaders (jsOrNull st.cookies.accessToken)
                    else buildHeaders (jsOrNull st.cookies.accessToken) opts.headers),
                   st.nextCtrl, REQUEST_TIMEOUT⟩],
                 netIdx := st.netIdx + 1 }) := by
  have hok : r.ok = false := by
    simp only [HttpResp.ok, Bool.and_eq_false_iff]
    right
    simp only [decide_eq_false_iff_not, not_lt]
    omega
  rw [fetchWithAuthRun.eq_def]
  simp only [hnet, resolve401, h401, if_false, reduceIte]
  rw [dif_neg (by rintro ⟨-, habs, -⟩; omega)]
  simp [hok]

/-- C4 witness: a 403 with a parseable `Forbidden` message. -/
theorem client_error_fatal_witness :
    fetchWithAuthRun net403 "/x" ⟨false, none⟩ 0 RespType.json (initSt cookiesFull) =
      (Except.error ⟨"Error", "Forbidden"⟩,
       { cookies := cookiesFull,
         events := [⟨CallKind.api, "/x",
           [("Content-Type", "application/json"), ("Authorization", "Bearer A")], 0, 30000⟩],
         waits := [], nextCtrl := 1, netIdx := 1, redirect := none }) :=
  client_error_fatal net403 "/x" ⟨false, none⟩ 0 RespType.json (initSt cookiesFull)
    ⟨403, true, some "Forbidden", none, ""⟩ rfl (by decide) (by decide) (by decide)

/-- C5: within one invocation, a 401 triggers exactly one refresh-and-retry.
General part: a 401 whose refresh fails (no stored refresh credential) ends
with `Authentication failed`, all four cookies cleared, a redirect to
`/login`, and exactly the one request event logged — no further retry.
Concrete part one: first call 401, refresh succeeds with token `T2`, re-issued
call 401 again — the run makes exactly the three calls [api, refresh, api]
(one refresh, one re-issue with `Bearer T2` headers, no second refresh within
the invocation), stores `T2`, performs no backoff wait, and fails with the
plain `API error: 401`.  Concrete part two: first call 401 and refresh
rejected with 401 — the run makes calls [api, refresh], clears all cookies,
redirects to `/login` and fails with `Authentication failed`. -/
theorem single_refresh_on_401 :
    (∀ (net : Nat → NetOutcome) (endpoint : String) (opts : FetchOptions) (retries : Nat)
       (rt : RespType) (st : St) (r : HttpResp),
       net st.netIdx = NetOutcome.success r → r.status = 401 →
       jsOrNull st.cookies.refreshToken = none →
       fetchWithAuthRun net endpoint opts retries rt st =
         (Except.error ⟨"Error", "Authentication failed"⟩,
          { st with cookies := clearAllCookies st.cookies,
                    events := st.events ++ [firstEvent endpoint opts st],
                    nextCtrl := st.nextCtrl + 1,
                    netIdx := st.netIdx + 1,
                    redirect := some "/login" })) ∧
    ((fetchWithAuthRun net401RefreshOk "/d" ⟨false, none⟩ 0 RespType.json (initSt cookiesFull)).1 =
        Except.error ⟨"Error", "API error: 401"⟩ ∧
     (fetchWithAuthRun net401RefreshOk "/d" ⟨false, none⟩ 0 RespType.json
        (initSt cookiesFull)).2.events.map kindOf =
        [CallKind.api, CallKind.refresh, CallKind.api] ∧
     (fetchWithAuthRun net401RefreshOk "/d" ⟨false, none⟩ 0 RespType.json
        (initSt cookiesFull)).2.events.map authHeaderOf =
        [some "Bearer A", some "Bearer R", some "Bearer T2"] ∧
     (fetchWithAuthRun net401RefreshOk "/d" ⟨false, none⟩ 0 RespType.json
        (initSt cookiesFull)).2.cookies.accessToken = some "T2" ∧
     (fetchWithAuthRun net401RefreshOk "/d" ⟨false, none⟩ 0 RespType.json
        (initSt cookiesFull)).2.waits = []) ∧
    ((fetchWithAuthRun net401all "/d" ⟨false, none⟩ 0 RespType.json (initSt cookiesFull)).1 =
        Except.error ⟨"Error", "Authentication failed"⟩ ∧
     (fetchWithAuthRun net401all "/d" ⟨false, none⟩ 0 RespType.json
        (initSt cookiesFull)).2.cookies = ⟨none, none, none, none⟩ ∧
     (fetchWithAuthRun net401all "/d" ⟨false, none⟩ 0 RespType.json
        (initSt cookiesFull)).2.redirect = some "/login" ∧
     (fetchWithAuthRun net401all "/d" ⟨false, none⟩ 0 RespType.json
        (initSt cookiesFull)).2.events.map kindOf = [CallKind.api, CallKind.refresh]) := by
  refine ⟨fetch_401_refresh_fail, ⟨?_, ?_, ?_, ?_, ?_⟩, ⟨?_, ?_, ?_, ?_⟩⟩ <;>
    simp [fetchWithAuthRun, net401RefreshOk, net401all, resolve401, refreshTokenRun, initSt,
      cookiesFull, jsOrNull, jsStringOf, buildHeaders, setHeader, jsTruthy, HttpResp.ok,
      MAX_RETRIES, respErrMsg, kindOf, authHeaderOf, getHeader, clearAllCookies]
  all_goals rfl

/-- C5 witness: a 401 with no stored refresh credential. -/
theorem single_refresh_on_401_witness :
    fetchWithAuthRun net401all "/d" ⟨false, none⟩ 0 RespType.json (initSt cookiesNoRefresh) =
      (Except.error ⟨"Error", "Authentication failed"⟩,
       { cookies := ⟨none, none, none, none⟩,
         events := [⟨CallKind.api, "/d",
           [("Content-Type", "application/json"), ("Authorization", "Bearer A")], 0, 30000⟩],
         waits := [], nextCtrl := 1, netIdx := 1, redirect := some "/login" }) :=
  single_refresh_on_401.1 net401all "/d" ⟨false, none⟩ 0 RespType.json (initSt cookiesNoRefresh)
    ⟨401, false, none, none, ""⟩ rfl rfl rfl

/-- C6: calling refreshToken with no stored refresh credential (and no refresh
pending) issues no network call: the event log and the network index are
unchanged, the access token and cached user data are removed, and the call
fails immediately with `No refresh token found`. -/
theorem no_refresh_credential_no_network (net : Nat → NetOutcome) (st : St)
    (h : jsOrNull st.cookies.refreshToken = none) :
    refreshTokenRun net st =
      (Except.error ⟨"Error", "No refresh token found"⟩,
       { st with cookies := { st.cookies with accessToken := none, userData := none } }) ∧
    (refreshTokenRun net st).2.events = st.events ∧
    (refreshTokenRun net st).2.netIdx = st.netIdx := by
  have heq := refresh_no_credential net st h
  refine ⟨heq, ?_, ?_⟩ <;> rw [heq]

/-- C6 witness: a jar holding an access token but no refresh credential. -/
theorem no_refresh_credential_no_network_witness :
    (refreshTokenRun netOk200 (initSt cookiesNoRefresh) =
      (Except.error ⟨"Error", "No refresh token found"⟩,
       { initSt cookiesNoRefresh with
         cookies := { (initSt cookiesNoRefresh).cookies with
                      accessToken := none, userData := none } })) ∧
    (refreshTokenRun netOk200 (initSt cookiesNoRefresh)).2.events =
      (initSt cookiesNoRefresh).events ∧
    (refreshTokenRun netOk200 (initSt cookiesNoRefresh)).2.netIdx =
      (initSt cookiesNoRefresh).netIdx :=
  no_refresh_credential_no_network netOk200 (initSt cookiesNoRefresh) rfl

/-- C7 counterexample: a FormData request with no stored access token is sent
with an `Authorization` header present whose value is the empty string — the
header is not omitted, contradicting the claim. -/
theorem formdata_auth_header_not_omitted :
    ((fetchWithAuthRun netOk200 "/upload" ⟨true, none⟩ 0 RespType.json
        (initSt noTokenCookies)).2.events.map authHeaderOf) = [some ""] ∧
    some "" ≠ (none : Option String) := by
  constructor
  · simp [fetchWithAuthRun, netOk200, resolve401, initSt, noTokenCookies, jsOrNull,
      formDataHeaders, jsTruthy, HttpResp.ok, MAX_RETRIES, authHeaderOf, getHeader]
  · decide

/-- C7 (amended): when an access token is stored, the first request of every
invocation carries `Authorization: Bearer <token>` (JSON and FormData bodies
alike); when none is stored, a JSON-body request omits the Authorization
header provided the caller supplied none in `options.headers`, while a
FormData-body request sends an Authorization header equal to the empty
string. -/
theorem auth_header_policy :
    (∀ (net : Nat → NetOutcome) (endpoint : String) (opts : FetchOptions) (retries : Nat)
       (rt : RespType) (st : St) (t : String),
       jsOrNull st.cookies.accessToken = some t →
       ∃ tail, (fetchWithAuthRun net endpoint opts retries rt st).2.events =
           st.events ++ firstEvent endpoint opts st :: tail ∧
         getHeader (firstEvent endpoint opts st).headers "Authorization" =
           some ("Bearer " ++ t)) ∧
    (∀ (net : Nat → NetOutcome) (endpoint : String) (opts : FetchOptions) (retries : Nat)
       (rt : RespType) (st : St),
       jsOrNull st.cookies.accessToken = none →
       opts.bodyIsFormData = true →
       ∃ tail, (fetchWithAuthRun net endpoint opts retries rt st).2.events =
           st.events ++ firstEvent endpoint opts st :: tail ∧
         getHeader (firstEvent endpoint opts st).headers "Authorization" = some "") ∧
    (∀ (net : Nat → NetOutcome) (endpoint : String) (opts : FetchOptions) (retries : Nat)
       (rt : RespType) (st : St),
       jsOrNull st.cookies.accessToken = none →
       opts.bodyIsFormData = false →
       (∀ hs, opts.headers = some hs → ∀ p ∈ hs, (p.1 == "Authorization") = false) →
       ∃ tail, (fetchWithAuthRun net endpoint opts retries rt st).2.events =
           st.events ++ firstEvent endpoint opts st :: tail ∧
         getHeader (firstEvent endpoint opts st).headers "Authorization" = none) := by
  refine ⟨?_, ?_, ?_⟩
  · intro net endpoint opts retries rt st t hcred
    obtain ⟨tail, htail⟩ := fwa_first_event MAX_RETRIES retries (by omega) net endpoint opts rt st
    refine ⟨tail, htail, ?_⟩
    have ht : t ≠ "" := jsOrNull_ne_empty hcred
    unfold firstEvent
    by_cases hfd : opts.bodyIsFormData = true
    · rw [hfd, if_pos rfl, hcred, formDataHeaders_auth]
      simp [jsTruthy, ht]
    · rw [Bool.not_eq_true] at hfd
      rw [hfd]
      simp only [Bool.false_eq_true, if_false, hcred]
      exact buildHeaders_auth t ht opts.headers
  · intro net endpoint opts retries rt st hcred hfd
    obtain ⟨tail, htail⟩ := fwa_first_event MAX_RETRIES retries (by omega) net endpoint opts rt st
    refine ⟨tail, htail, ?_⟩
    unfold firstEvent
    rw [hfd, if_pos rfl, hcred, formDataHeaders_auth]
    simp [jsTruthy]
  · intro net endpoint opts retries rt st hcred hfd hno
    obtain ⟨tail, htail⟩ := fwa_first_event MAX_RETRIES retries (by omega) net endpoint opts rt st
    refine ⟨tail, htail, ?_⟩
    unfold firstEvent
    rw [hfd]
    simp only [Bool.false_eq_true, if_false, hcred]
    exact buildHeaders_no_auth opts.headers hno

/-- C7 witness: stored token `A` on a JSON-body request. -/
theorem auth_header_policy_witness :
    (∃ tail, (fetchWithAuthRun netOk200 "/x" ⟨false, none⟩ 0 RespType.json
        (initSt cookiesFull)).2.events =
        (initSt cookiesFull).events ++ firstEvent "/x" ⟨false, none⟩ (initSt cookiesFull) :: tail ∧
      getHeader (firstEvent "/x" ⟨false, none⟩ (initSt cookiesFull)).headers "Authorization" =
        some ("Bearer " ++ "A")) :=
  auth_header_policy.1 netOk200 "/x" ⟨false, none⟩ 0 RespType.json (initSt cookiesFull) "A" rfl

/-- C8 counterexample: a non-FormData request whose caller supplies
`Content-Type: text/plain` in `options.headers` is sent with that value — the
headers do not include `application/json`, contradicting the universally
quantified claim. -/
theorem content_type_caller_override :
    ((fetchWithAuthRun netOk200 "/x" ⟨false, some [("Content-Type", "text/plain")]⟩ 0
        RespType.json (initSt cookiesFull)).2.events.map ctHeaderOf) = [some "text/plain"] ∧
    (some "text/plain" : Option String) ≠ some "application/json" := by
  constructor
  · simp [fetchWithAuthRun, netOk200, resolve401, initSt, cookiesFull, jsOrNull, buildHeaders,
      setHeader, jsTruthy, HttpResp.ok, MAX_RETRIES, ctHeaderOf, getHeader]
  · decide

/-- C8 (amended): a FormData-body request carries no explicit Content-Type
entry; a non-FormData request carries `Content-Type: application/json`
provided the caller supplied no Content-Type entry of their own (a
caller-supplied entry overrides the default). -/
theorem content_type_policy :
    (∀ (net : Nat → NetOutcome) (endpoint : String) (opts : FetchOptions) (retries : Nat)
       (rt : RespType) (st : St),
       opts.bodyIsFormData = true →
       ∃ tail, (fetchWithAuthRun net endpoint opts retries rt st).2.events =
           st.events ++ firstEvent endpoint opts st :: tail ∧
         getHeader (firstEvent endpoint opts st).headers "Content-Type" = none) ∧
    (∀ (net : Nat → NetOutcome) (endpoint : String) (opts : FetchOptions) (retries : Nat)
       (rt : RespType) (st : St),
       opts.bodyIsFormData = false →
       (∀ hs, opts.headers = some hs → ∀ p ∈ hs, (p.1 == "Content-Type") = false) →
       ∃ tail, (fetchWithAuthRun net endpoint opts retries rt st).2.events =
           st.events ++ firstEvent endpoint opts st :: tail ∧
         getHeader (firstEvent endpoint opts st).headers "Content-Type" =
           some "application/json") := by
  refine ⟨?_, ?_⟩
  · intro net endpoint opts retries rt st hfd
    obtain ⟨tail, htail⟩ := fwa_first_event MAX_RETRIES retries (by omega) net endpoint opts rt st
    refine ⟨tail, htail, ?_⟩
    unfold firstEvent
    rw [hfd, if_pos rfl]
    exact formDataHeaders_no_ct _
  · intro net endpoint opts retries rt st hfd hno
    obtain ⟨tail, htail⟩ := fwa_first_event MAX_RETRIES retries (by omega) net endpoint opts rt st
    refine ⟨tail, htail, ?_⟩
    unfold firstEvent
    rw [hfd]
    simp only [Bool.false_eq_true, if_false]
    exact buildHeaders_ct _ opts.headers hno

/-- C8 witness: the JSON default on a request with no caller headers. -/
theorem content_type_policy_witness :
    (∃ tail, (fetchWithAuthRun netOk200 "/x" ⟨false, none⟩ 0 RespType.json
        (initSt cookiesFull)).2.events =
        (initSt cookiesFull).events ++ firstEvent "/x" ⟨false, none⟩ (initSt cookiesFull) :: tail ∧
      getHeader (firstEvent "/x" ⟨false, none⟩ (initSt cookiesFull)).headers "Content-Type" =
        some "application/json") :=
  content_type_policy.2 netOk200 "/x" ⟨false, none⟩ 0 RespType.json (initSt cookiesFull) rfl
    (fun _ h => nomatch h)

/-- C9 counterexample: `/branches` is a route of the application other than
the login route, yet a request to it without an access-token cookie is not
redirected, because the middleware matcher does not select it. -/
theorem unmatched_route_not_guarded :
    routeGuard "/branches" none = none ∧ "/branches" ≠ "/login" := by
  refine ⟨rfl, by decide⟩

/-- C9 (amended): the middleware runs only on the matcher routes `/`,
`/dashboard` (with subpaths) and `/login`; among those, a request without an
access-token cookie to a route other than `/login` redirects to `/login`, a
request to `/login` with a non-empty access-token cookie redirects to
`/dashboard`, and every path outside the matcher proceeds unguarded. -/
theorem route_guard_policy (path : String) (tok : Option String) :
    (matcherMatches path = true → path ≠ "/login" → tok.getD "" = "" →
      routeGuard path tok = some "/login") ∧
    (matcherMatches path = true → path = "/login" → tok.getD "" ≠ "" →
      routeGuard path tok = some "/dashboard") ∧
    (matcherMatches path = false → routeGuard path tok = none) := by
  refine ⟨?_, ?_, ?_⟩
  · intro hm hne htok
    have hbeq : (path == "/login") = false := by
      simp only [beq_eq_false_iff_ne, ne_eq]
      exact hne
    simp [routeGuard, hm, middleware, hbeq, htok]
  · intro hm heq htok
    have hbeq : (path == "/login") = true := by simp [heq]
    simp [routeGuard, hm, middleware, hbeq, htok]
  · intro hm
    simp [routeGuard, hm]

/-- C9 witness: the guarded routes behave as amended. -/
theorem route_guard_policy_witness :
    routeGuard "/" none = some "/login" ∧
    routeGuard "/login" (some "A") = some "/dashboard" :=
  ⟨(route_guard_policy "/" none).1 rfl (by decide) rfl,
   (route_guard_policy "/login" (some "A")).2.1 rfl rfl (by decide)⟩

/-- C10: cancellation-signal sharing.  Part one: after a 401 and a successful
refresh, the re-issued request is bound to the same abort controller created
at the start of the invocation (`st.nextCtrl`, 30000 ms window, running since
before the first attempt), while the refresh call used its own fresh
controller.  Part two: a ≥500-triggered retry is a new recursive invocation
whose first call is bound to a freshly created controller (`st.nextCtrl + 1`)
with its own 30000 ms window. -/
theorem abort_controller_windows :
    (∀ (net : Nat → NetOutcome) (endpoint : String) (opts : FetchOptions) (retries : Nat)
       (rt : RespType) (st : St) (r rr : HttpResp) (rtok : String),
       net st.netIdx = NetOutcome.success r → r.status = 401 →
       jsOrNull st.cookies.refreshToken = some rtok →
       net (st.netIdx + 1) = NetOutcome.success rr →
       rr.ok = true → rr.jsonOk = true →
       ∃ ev3 tail,
         (fetchWithAuthRun net endpoint opts retries rt st).2.events =
           st.events ++ firstEvent endpoint opts st ::
             ({ kind := CallKind.refresh, endpoint := "/auth/refresh",
                headers := [("Authorization", "Bearer " ++ rtok),
                            ("Content-Type", "application/json")],
                ctrl := st.nextCtrl + 1, timeoutMs := REQUEST_TIMEOUT } : FetchEvent) ::
             ev3 :: tail ∧
         (firstEvent endpoint opts st).ctrl = st.nextCtrl ∧
         (firstEvent endpoint opts st).timeoutMs = REQUEST_TIMEOUT ∧
         ev3.kind = CallKind.api ∧ ev3.endpoint = endpoint ∧
         ev3.ctrl = st.nextCtrl ∧ ev3.timeoutMs = REQUEST_TIMEOUT) ∧
    (∀ (net : Nat → NetOutcome) (endpoint : String) (opts : FetchOptions) (retries : Nat)
       (rt : RespType) (st : St) (r : HttpResp),
       net st.netIdx = NetOutcome.success r → 500 ≤ r.status → retries < MAX_RETRIES →
       ∃ ev2 tail,
         (fetchWithAuthRun net endpoint opts retries rt st).2.events =
           st.events ++ firstEvent endpoint opts st :: ev2 :: tail ∧
         (firstEvent endpoint opts st).ctrl = st.nextCtrl ∧
         (firstEvent endpoint opts st).timeoutMs = REQUEST_TIMEOUT ∧
         ev2.kind = CallKind.api ∧ ev2.endpoint = endpoint ∧
         ev2.ctrl = st.nextCtrl + 1 ∧ ev2.timeoutMs = REQUEST_TIMEOUT) :=
  ⟨reissue_shares_controller, retry_fresh_controller⟩

/-- C10 witness: the fresh-controller retry at the all-500 oracle. -/
theorem abort_controller_windows_witness :
    (∃ ev2 tail,
       (fetchWithAuthRun net500all "/x" ⟨false, none⟩ 0 RespType.json
           (initSt cookiesFull)).2.events =
         (initSt cookiesFull).events ++
           firstEvent "/x" ⟨false, none⟩ (initSt cookiesFull) :: ev2 :: tail ∧
       (firstEvent "/x" ⟨false, none⟩ (initSt cookiesFull)).ctrl =
         (initSt cookiesFull).nextCtrl ∧
       (firstEvent "/x" ⟨false, none⟩ (initSt cookiesFull)).timeoutMs = REQUEST_TIMEOUT ∧
       ev2.kind = CallKind.api ∧ ev2.endpoint = "/x" ∧
       ev2.ctrl = (initSt cookiesFull).nextCtrl + 1 ∧ ev2.timeoutMs = REQUEST_TIMEOUT) :=
  abort_controller_windows.2 net500all "/x" ⟨false, none⟩ 0 RespType.json (initSt cookiesFull)
    ⟨500, false, none, none, ""⟩ rfl (by decide) (by decide)

end PulsePMS
